import Mathlib

/-!
# StaggeredHMC.cc: the configuration that `main` hands to `TheHMC.Run()`

`HMC/StaggeredHMC.cc` is one function, `main`, a straight-line sequence of
declarations, assignments and calls that configures a `GenericHMCRunner` and
starts it.  The development below embeds

* the C++ arithmetic `main` relies on (decimal and integer literals converted
  to `double`, `double` converted to an unsigned integer, `int` converted to
  `unsigned int`);
* the Grid types `main` touches, as records with the members `main` uses;
* `main` itself, as the list `mainBody` of its statements together with the
  effect `exec` of each statement on the program state.

The Grid library (integrator, solver, resource manager, checkpointer, driver)
is not part of the translated source.  Its defaults and its command-line
handling are parameters (`Library`); the parts of its behaviour a property
needs are modelled from the specification and marked as such.  In particular
the run itself is the driver loop of the specification over an `Engine` of
collaborators that are functions of their arguments; the floating-point
arithmetic and the reductions inside those collaborators are not modelled.
-/

namespace Grid

/-! ## C++ arithmetic -/

/-- A finite binary64 value `± mant * 2 ^ expo`.  Values produced by the
conversions below are normalised: `mant = 0`, or `2^52 ≤ mant < 2^53`.  The
exponent range of binary64 (overflow, subnormals) is not modelled. -/
structure Double where
  neg : Bool
  mant : Nat
  expo : Int
deriving DecidableEq, Repr

/-- The rational number a `Double` stands for. -/
def Double.toRat (x : Double) : ℚ :=
  (if x.neg then -1 else 1) * (x.mant : ℚ) * (2 : ℚ) ^ x.expo

/-- Nearest integer to `p / d`, ties to even (the IEEE default rounding). -/
def roundHalfEven (p d : Nat) : Nat :=
  let q := p / d
  let r := p % d
  if 2 * r < d then q else if d < 2 * r then q + 1 else if q % 2 = 0 then q else q + 1

/-- Floor of the base-2 logarithm of `n` (0 for `n < 2`); `fuel ≥ n` suffices. -/
def ilog2 : Nat → Nat → Nat
  | 0, _ => 0
  | fuel + 1, n => if n < 2 then 0 else ilog2 fuel (n / 2) + 1

/-- Floor of the base-2 logarithm of the positive rational `p / d`. -/
def floorLog2 (p d : Nat) : Int :=
  let k : Int := (ilog2 p p : Int) - (ilog2 d d : Int)
  if (if 0 ≤ k then d * 2 ^ k.toNat ≤ p else d ≤ p * 2 ^ (-k).toNat) then k else k - 1

/-- The binary64 value nearest to `± p / d`: 53 significant bits, round to
nearest, ties to even. -/
def Double.ofRatio (neg : Bool) (p d : Nat) : Double :=
  if p = 0 then ⟨neg, 0, 0⟩ else
  let e : Int := floorLog2 p d - 52
  let m := if 0 ≤ e then roundHalfEven p (d * 2 ^ e.toNat)
           else roundHalfEven (p * 2 ^ (-e).toNat) d
  if m = 2 ^ 53 then ⟨neg, 2 ^ 52, e + 1⟩ else ⟨neg, m, e⟩

/-- The value of a non-negative decimal floating literal with digits `m` and
decimal exponent `e10`: `1.0` is `ofDecimal 10 (-1)`, `1e-8` is
`ofDecimal 1 (-8)`. -/
def Double.ofDecimal (m : Nat) (e10 : Int) : Double :=
  if 0 ≤ e10 then Double.ofRatio false (m * 10 ^ e10.toNat) 1
  else Double.ofRatio false m (10 ^ (-e10).toNat)

/-- Conversion `int → double` (as in `double max_cg_iters = 2000;`). -/
def Double.ofInt (i : Int) : Double :=
  Double.ofRatio (decide (i < 0)) i.natAbs 1

/-- Conversion `double → ` unsigned integer of `w` bits: the fractional part is
discarded; a value that does not fit has no defined result. -/
def Double.toUnsigned (w : Nat) (x : Double) : Option Nat :=
  let t := if 0 ≤ x.expo then x.mant * 2 ^ x.expo.toNat else x.mant / 2 ^ (-x.expo).toNat
  if x.neg && t != 0 then none
  else if t < 2 ^ w then some t else none

/-- Conversion `int → unsigned int` (32 bits): reduction modulo `2^32`. -/
def toUnsignedInt (i : Int) : Nat :=
  (i % 2 ^ 32).toNat

/-! ## The Grid types used by `main` -/

/-- What `Grid_init` leaves in the process-wide defaults: the lattice and its
decomposition over ranks. -/
structure Decomposition where
  latt : List Nat
  mpi : List Nat
deriving DecidableEq, Repr

/-- The library type `IntegratorParameters`, with the two members `main`
assigns. -/
structure IntegratorParameters where
  MDsteps : Nat
  trajL : Double
deriving DecidableEq, Repr

/-- Modelled from the spec: the declaration of `HMCparameters` is not in the
translated source.  `main` uses its member `MD`; the spec adds "the configured
number of trajectories", the member `Trajectories`. -/
structure HMCparameters where
  Trajectories : Nat
  MD : IntegratorParameters
deriving DecidableEq, Repr

/-- The library type `CheckpointerParameters`, with the four members `main`
assigns. -/
structure CheckpointerParameters where
  config_prefix : String
  rng_prefix : String
  saveInterval : Int
  format : String
deriving DecidableEq, Repr

/-- The library type `RNGModuleParameters`, with the two seed strings `main`
assigns. -/
structure RNGModuleParameters where
  serial_seeds : String
  parallel_seeds : String
deriving DecidableEq, Repr

/-- Modelled from the spec: the declaration of `ConjugateGradient` is not in the
translated source.  The spec describes the solver as working "to a
relative-residual tolerance, bounded by a maximum iteration count"; these are
the two constructor arguments `main` passes, a real tolerance and an unsigned
32-bit iteration limit. -/
structure ConjugateGradient where
  Tolerance : Double
  MaxIterations : Nat
deriving DecidableEq, Repr

/-- The objects of `main` that other objects hold by pointer or reference. -/
inductive Ref
  | CG
  | U
  | Ds
  | Nf4
  | GaugeAction
deriving DecidableEq, Repr

/-- Modelled from the spec: the declaration of `ActionLevel` is not in the
translated source.  The spec describes it as an "ordered sequence of ActionTerm
references plus an integer multiplier": the pointers pushed to the level, in
order, and the multiplier given to the constructor. -/
structure ActionLevel where
  actions : List Ref
  multiplier : Nat
deriving DecidableEq, Repr

/-- The constructor `ActionLevel(unsigned int mul)`: an empty level with the given
multiplier. -/
def ActionLevel.new (mul : Int) : ActionLevel :=
  { actions := [], multiplier := toUnsignedInt mul }

/-- The member `ActionLevel::push_back(Action*)`: append a pointer to an action
term. -/
def ActionLevel.push_back (l : ActionLevel) (a : Ref) : ActionLevel :=
  { l with actions := l.actions ++ [a] }

/-- A Cartesian grid handed out by the resource manager. -/
structure GridCartesian where
  name : String
  decomposition : Decomposition
  redBlack : Bool
deriving DecidableEq, Repr

/-- Observable modules that can be registered. -/
inductive ObservableModule
  | PlaquetteMod
deriving DecidableEq, Repr

/-- The library type `HMCResourceManager`, as a record of what `main` has
registered with it so far: grids and observables are added, the checkpointer
parameters and the seeds are set (copied from the argument of the call). -/
structure HMCResourceManager where
  Grids : List GridCartesian
  CP : Option CheckpointerParameters
  RNGs : Option RNGModuleParameters
  ObservablesList : List ObservableModule
deriving DecidableEq, Repr

/-- The library type `GenericHMCRunner<MinimumNorm2>`, with the three public
members `main` writes. -/
structure GenericHMCRunner where
  Parameters : HMCparameters
  Resources : HMCResourceManager
  TheAction : List ActionLevel
deriving DecidableEq, Repr

/-- The library type `SymanzikGaugeActionR`: the coupling it was constructed with. -/
structure SymanzikGaugeAction where
  beta : Double
deriving DecidableEq, Repr

/-- The library type `LatticeGaugeField`: the grid it lives on. -/
structure LatticeGaugeField where
  grid : GridCartesian
deriving DecidableEq, Repr

/-- The library type `NaiveStaggeredFermionD`: its constructor arguments. -/
structure NaiveStaggeredFermion where
  Umu : Ref
  FGrid : GridCartesian
  HGrid : GridCartesian
  mass : Double
  c1 : Double
  u0 : Double
deriving DecidableEq, Repr

/-- Modelled from the spec: the declaration of
`TwoFlavourEvenOddPseudoFermionAction` is not in the translated source.  `main`
passes it an operator and two solvers by reference and assigns its member
`is_smeared`; following the spec, "force" solves "via the LinearSolver" and
"value requires one solve", so one solver reference serves the force and the
other the action value. -/
structure TwoFlavourEvenOddPseudoFermionAction where
  FermOp : Ref
  DerivativeSolver : Ref
  ActionSolver : Ref
  is_smeared : Bool
deriving DecidableEq, Repr

/-- The parts of the Grid library that `main` relies on and that are not in
the translated source: the command-line handling of `Grid_init` and the values
the default constructors give. -/
structure Library where
  Grid_init : List String → Decomposition
  HMCparameters_default : HMCparameters
  IntegratorParameters_default : IntegratorParameters
  CheckpointerParameters_default : CheckpointerParameters
  RNGModuleParameters_default : RNGModuleParameters
  is_smeared_default : Bool

/-- The default constructor of `GenericHMCRunner`: default parameters, nothing
registered, no action level. -/
def GenericHMCRunner.new (lib : Library) : GenericHMCRunner :=
  { Parameters := lib.HMCparameters_default,
    Resources := { Grids := [], CP := none, RNGs := none, ObservablesList := [] },
    TheAction := [] }

/-- The constructor `TwoFlavourEvenOddPseudoFermionAction(Op, DS, AS)`: the
operator, the solver for the force (`DS`) and the solver for the action value
(`AS`), all held by reference. -/
def TwoFlavourEvenOddPseudoFermionAction.new (lib : Library) (Op DS AS : Ref) :
    TwoFlavourEvenOddPseudoFermionAction :=
  { FermOp := Op, DerivativeSolver := DS, ActionSolver := AS,
    is_smeared := lib.is_smeared_default }

/-! ## The state of `main` -/

/-- The type `FermionAction::ImplParams`, default constructed. -/
inductive ImplParams
  | default
deriving DecidableEq, Repr

/-- The local variables of `main`; `none` before the declaration is reached. -/
structure Frame where
  params : Option ImplParams := none
  trajectory_length : Option Double := none
  cg_tol : Option Double := none
  max_cg_iters : Option Double := none
  level2_multiplier : Option Int := none
  md_steps : Option Int := none
  MD : Option IntegratorParameters := none
  HMCparams : Option HMCparameters := none
  CPparams : Option CheckpointerParameters := none
  RNGpar : Option RNGModuleParameters := none
  TheHMC : Option GenericHMCRunner := none
  CG : Option ConjugateGradient := none
  Level1 : Option ActionLevel := none
  Level2 : Option ActionLevel := none
  GridPtr : Option GridCartesian := none
  GridRBPtr : Option GridCartesian := none
  beta : Option Double := none
  mass : Option Double := none
  c1 : Option Double := none
  u0 : Option Double := none
  smeared : Option Bool := none
  GaugeAction : Option SymanzikGaugeAction := none
  U : Option LatticeGaugeField := none
  Ds : Option NaiveStaggeredFermion := none
  Nf4 : Option TwoFlavourEvenOddPseudoFermionAction := none
deriving DecidableEq, Repr

/-- The program state: the process-wide defaults set by `Grid_init`, the
locals, the frames with which `TheHMC.Run()` has been entered so far, and
whether `Grid_finalize` has been called. -/
structure State where
  defaults : Option Decomposition := none
  frame : Frame := {}
  runs : List Frame := []
  finalized : Bool := false
deriving DecidableEq, Repr

/-- Apply a fallible update to the locals. -/
def State.onFrame (s : State) (g : Frame → Option Frame) : Option State :=
  (g s.frame).map fun f => { s with frame := f }

/-- The two `ActionLevel` locals. -/
inductive LevelVar
  | Level1
  | Level2
deriving DecidableEq, Repr

/-- Read an `ActionLevel` local. -/
def Frame.level (f : Frame) : LevelVar → Option ActionLevel
  | .Level1 => f.Level1
  | .Level2 => f.Level2

/-- Overwrite an `ActionLevel` local. -/
def Frame.setLevel (f : Frame) : LevelVar → ActionLevel → Frame
  | .Level1, l => { f with Level1 := some l }
  | .Level2, l => { f with Level2 := some l }

/-- Whether the object behind a pointer exists yet. -/
def Frame.alive (f : Frame) : Ref → Bool
  | .CG => f.CG.isSome
  | .U => f.U.isSome
  | .Ds => f.Ds.isSome
  | .Nf4 => f.Nf4.isSome
  | .GaugeAction => f.GaugeAction.isSome

/-! ## The statements of `main` -/

/-- The statements of `main`, one constructor per statement, in source order. -/
inductive Stmt
  | Grid_init
  | decl_params
  | decl_trajectory_length
  | decl_cg_tol
  | decl_max_cg_iters
  | decl_level2_multiplier
  | decl_md_steps
  | decl_MD
  | decl_HMCparams
  | decl_CPparams
  | decl_RNGpar
  | decl_TheHMC
  | decl_CG
  | decl_Level1
  | decl_Level2
  | assign_MDsteps
  | assign_trajL
  | AddFourDimGrid
  | assign_CP_config
  | assign_CP_rng
  | assign_CP_saveInterval
  | assign_CP_format
  | LoadNerscCheckpointer
  | assign_serial_seeds
  | assign_parallel_seeds
  | SetRNGSeeds
  | AddObservable
  | decl_GridPtr
  | decl_GridRBPtr
  | decl_beta
  | decl_mass
  | decl_c1
  | decl_u0
  | decl_smeared
  | decl_GaugeAction
  | decl_U
  | decl_Ds
  | decl_Nf4
  | assign_is_smeared
  | Level_push_back (l : LevelVar) (a : Ref)
  | TheAction_push_back (l : LevelVar)
  | Run
  | Grid_finalize
deriving DecidableEq, Repr

/-- The body of `main`, statement by statement (source lines 39 to 120; the
call `TheHMC.ReadCommandLine(argc, argv)` on line 117 is commented out in the
source and therefore absent). -/
def mainBody : List Stmt :=
  [ .Grid_init,                          -- Grid_init(&argc, &argv);
    .decl_params,                        -- typename FermionAction::ImplParams params;
    .decl_trajectory_length,             -- Real trajectory_length = 1.0;
    .decl_cg_tol,                        -- double cg_tol = 1e-8;
    .decl_max_cg_iters,                  -- double max_cg_iters = 2000;
    .decl_level2_multiplier,             -- int level2_multiplier = 4;
    .decl_md_steps,                      -- int md_steps = 20;
    .decl_MD,                            -- IntegratorParameters MD;
    .decl_HMCparams,                     -- HMCparameters HMCparams;
    .decl_CPparams,                      -- CheckpointerParameters CPparams;
    .decl_RNGpar,                        -- RNGModuleParameters RNGpar;
    .decl_TheHMC,                        -- HMCWrapper TheHMC;
    .decl_CG,                            -- ConjugateGradient<FermionField> CG(cg_tol, max_cg_iters);
    .decl_Level1,                        -- ActionLevel<HMCWrapper::Field> Level1(1);
    .decl_Level2,                        -- ActionLevel<HMCWrapper::Field> Level2(level2_multiplier);
    .assign_MDsteps,                     -- TheHMC.Parameters.MD.MDsteps = md_steps;
    .assign_trajL,                       -- TheHMC.Parameters.MD.trajL = trajectory_length;
    .AddFourDimGrid,                     -- TheHMC.Resources.AddFourDimGrid("gauge");
    .assign_CP_config,                   -- CPparams.config_prefix = "ckpoint_lat";
    .assign_CP_rng,                      -- CPparams.rng_prefix = "ckpoint_rng";
    .assign_CP_saveInterval,             -- CPparams.saveInterval = 5;
    .assign_CP_format,                   -- CPparams.format = "IEEE64BIG";
    .LoadNerscCheckpointer,              -- TheHMC.Resources.LoadNerscCheckpointer(CPparams);
    .assign_serial_seeds,                -- RNGpar.serial_seeds = "1 2 3 4 5";
    .assign_parallel_seeds,              -- RNGpar.parallel_seeds = "6 7 8 9 10";
    .SetRNGSeeds,                        -- TheHMC.Resources.SetRNGSeeds(RNGpar);
    .AddObservable,                      -- TheHMC.Resources.AddObservable<PlaqObs>();
    .decl_GridPtr,                       -- auto GridPtr = TheHMC.Resources.GetCartesian();
    .decl_GridRBPtr,                     -- auto GridRBPtr = TheHMC.Resources.GetRBCartesian();
    .decl_beta,                          -- RealD beta = 7.0;
    .decl_mass,                          -- RealD mass = 0.1;
    .decl_c1,                            -- RealD c1 = 0.0;
    .decl_u0,                            -- RealD u0 = 1.0;
    .decl_smeared,                       -- bool smeared = false;
    .decl_GaugeAction,                   -- SymanzikGaugeActionR GaugeAction(beta);
    .decl_U,                             -- LatticeGaugeField U(GridPtr);
    .decl_Ds,                            -- FermionAction Ds(U, *GridPtr, *GridRBPtr, mass, c1, u0, params);
    .decl_Nf4,                           -- TwoFlavourEvenOddPseudoFermionAction<...> Nf4(Ds, CG, CG);
    .assign_is_smeared,                  -- Nf4.is_smeared = smeared;
    .Level_push_back .Level1 .Nf4,         -- Level1.push_back(&Nf4);
    .Level_push_back .Level2 .GaugeAction, -- Level2.push_back(&GaugeAction);
    .TheAction_push_back .Level1,        -- TheHMC.TheAction.push_back(Level1);
    .TheAction_push_back .Level2,        -- TheHMC.TheAction.push_back(Level2);
    .Run,                                -- TheHMC.Run();
    .Grid_finalize ]                     -- Grid_finalize();

/-- The effect of one statement.  `none` means the statement has no defined
effect in the state: it reads a local that is not declared yet, takes the
address of an object that does not exist, or converts a `double` that does not
fit the integer type. -/
def exec (lib : Library) (argv : List String) : Stmt → State → Option State
  | .Grid_init, s => some { s with defaults := some (lib.Grid_init argv) }
  | .decl_params, s => s.onFrame fun f => some { f with params := some .default }
  | .decl_trajectory_length, s => s.onFrame fun f =>
      some { f with trajectory_length := some (Double.ofDecimal 10 (-1)) }
  | .decl_cg_tol, s => s.onFrame fun f => some { f with cg_tol := some (Double.ofDecimal 1 (-8)) }
  | .decl_max_cg_iters, s => s.onFrame fun f => some { f with max_cg_iters := some (Double.ofInt 2000) }
  | .decl_level2_multiplier, s => s.onFrame fun f => some { f with level2_multiplier := some 4 }
  | .decl_md_steps, s => s.onFrame fun f => some { f with md_steps := some 20 }
  | .decl_MD, s => s.onFrame fun f => some { f with MD := some lib.IntegratorParameters_default }
  | .decl_HMCparams, s => s.onFrame fun f => some { f with HMCparams := some lib.HMCparameters_default }
  | .decl_CPparams, s => s.onFrame fun f =>
      some { f with CPparams := some lib.CheckpointerParameters_default }
  | .decl_RNGpar, s => s.onFrame fun f => some { f with RNGpar := some lib.RNGModuleParameters_default }
  | .decl_TheHMC, s => s.onFrame fun f =>
      some { f with TheHMC := some (GenericHMCRunner.new lib) }
  | .decl_CG, s => s.onFrame fun f => do
      let tol ← f.cg_tol
      let it ← f.max_cg_iters
      let maxit ← it.toUnsigned 32
      some { f with CG := some { Tolerance := tol, MaxIterations := maxit } }
  | .decl_Level1, s => s.onFrame fun f => some { f with Level1 := some (ActionLevel.new 1) }
  | .decl_Level2, s => s.onFrame fun f => do
      let m ← f.level2_multiplier
      some { f with Level2 := some (ActionLevel.new m) }
  | .assign_MDsteps, s => s.onFrame fun f => do
      let hmc ← f.TheHMC
      let v ← f.md_steps
      some { f with TheHMC := some { hmc with
        Parameters := { hmc.Parameters with
          MD := { hmc.Parameters.MD with MDsteps := toUnsignedInt v } } } }
  | .assign_trajL, s => s.onFrame fun f => do
      let hmc ← f.TheHMC
      let v ← f.trajectory_length
      some { f with TheHMC := some { hmc with
        Parameters := { hmc.Parameters with MD := { hmc.Parameters.MD with trajL := v } } } }
  | .AddFourDimGrid, s => do
      let d ← s.defaults
      s.onFrame fun f => do
        let hmc ← f.TheHMC
        some { f with TheHMC := some { hmc with
          Resources := { hmc.Resources with
            Grids := hmc.Resources.Grids ++
              [{ name := "gauge", decomposition := d, redBlack := false }] } } }
  | .assign_CP_config, s => s.onFrame fun f => do
      let c ← f.CPparams
      some { f with CPparams := some { c with config_prefix := "ckpoint_lat" } }
  | .assign_CP_rng, s => s.onFrame fun f => do
      let c ← f.CPparams
      some { f with CPparams := some { c with rng_prefix := "ckpoint_rng" } }
  | .assign_CP_saveInterval, s => s.onFrame fun f => do
      let c ← f.CPparams
      some { f with CPparams := some { c with saveInterval := 5 } }
  | .assign_CP_format, s => s.onFrame fun f => do
      let c ← f.CPparams
      some { f with CPparams := some { c with format := "IEEE64BIG" } }
  | .LoadNerscCheckpointer, s => s.onFrame fun f => do
      let hmc ← f.TheHMC
      let c ← f.CPparams
      some { f with TheHMC := some { hmc with Resources := { hmc.Resources with CP := some c } } }
  | .assign_serial_seeds, s => s.onFrame fun f => do
      let r ← f.RNGpar
      some { f with RNGpar := some { r with serial_seeds := "1 2 3 4 5" } }
  | .assign_parallel_seeds, s => s.onFrame fun f => do
      let r ← f.RNGpar
      some { f with RNGpar := some { r with parallel_seeds := "6 7 8 9 10" } }
  | .SetRNGSeeds, s => s.onFrame fun f => do
      let hmc ← f.TheHMC
      let r ← f.RNGpar
      some { f with TheHMC := some { hmc with Resources := { hmc.Resources with RNGs := some r } } }
  | .AddObservable, s => s.onFrame fun f => do
      let hmc ← f.TheHMC
      some { f with TheHMC := some { hmc with
        Resources := { hmc.Resources with
          ObservablesList := hmc.Resources.ObservablesList ++ [.PlaquetteMod] } } }
  | .decl_GridPtr, s => s.onFrame fun f => do
      let hmc ← f.TheHMC
      let g ← hmc.Resources.Grids.head?
      some { f with GridPtr := some g }
  | .decl_GridRBPtr, s => s.onFrame fun f => do
      let hmc ← f.TheHMC
      let g ← hmc.Resources.Grids.head?
      some { f with GridRBPtr := some { g with redBlack := true } }
  | .decl_beta, s => s.onFrame fun f => some { f with beta := some (Double.ofDecimal 70 (-1)) }
  | .decl_mass, s => s.onFrame fun f => some { f with mass := some (Double.ofDecimal 1 (-1)) }
  | .decl_c1, s => s.onFrame fun f => some { f with c1 := some (Double.ofDecimal 0 (-1)) }
  | .decl_u0, s => s.onFrame fun f => some { f with u0 := some (Double.ofDecimal 10 (-1)) }
  | .decl_smeared, s => s.onFrame fun f => some { f with smeared := some false }
  | .decl_GaugeAction, s => s.onFrame fun f => do
      let b ← f.beta
      some { f with GaugeAction := some { beta := b } }
  | .decl_U, s => s.onFrame fun f => do
      let g ← f.GridPtr
      some { f with U := some { grid := g } }
  | .decl_Ds, s => s.onFrame fun f => do
      let _ ← f.U
      let g ← f.GridPtr
      let rb ← f.GridRBPtr
      let m ← f.mass
      let c ← f.c1
      let u ← f.u0
      let _ ← f.params
      some { f with Ds := some { Umu := .U, FGrid := g, HGrid := rb, mass := m, c1 := c, u0 := u } }
  | .decl_Nf4, s => s.onFrame fun f => do
      let _ ← f.Ds
      let _ ← f.CG
      some { f with Nf4 := some (TwoFlavourEvenOddPseudoFermionAction.new lib .Ds .CG .CG) }
  | .assign_is_smeared, s => s.onFrame fun f => do
      let a ← f.Nf4
      let v ← f.smeared
      some { f with Nf4 := some { a with is_smeared := v } }
  | .Level_push_back l a, s => s.onFrame fun f => do
      let lv ← f.level l
      if f.alive a then some (f.setLevel l (lv.push_back a)) else none
  | .TheAction_push_back l, s => s.onFrame fun f => do
      let hmc ← f.TheHMC
      let lv ← f.level l
      some { f with TheHMC := some { hmc with TheAction := hmc.TheAction ++ [lv] } }
  | .Run, s => do
      let _ ← s.frame.TheHMC
      some { s with runs := s.runs ++ [s.frame] }
  | .Grid_finalize, s => some { s with finalized := true }

/-- Execute a statement sequence from a state. -/
def execAll (lib : Library) (argv : List String) : List Stmt → State → Option State
  | [], s => some s
  | st :: rest, s => (exec lib argv st s).bind (execAll lib argv rest)

/-- The function `main`: its body executed from the empty state. -/
def main (lib : Library) (argv : List String) : Option State :=
  execAll lib argv mainBody {}

/-- The locals with which `TheHMC.Run()` is entered, when `main` enters it
exactly once. -/
def handedToRun (lib : Library) (argv : List String) : Option Frame :=
  (main lib argv).bind fun s =>
    match s.runs with
    | [f] => some f
    | _ => none

/-! ## Following the pointers of the run -/

/-- The solver behind a reference, if the reference is to a solver. -/
def Frame.solver (f : Frame) : Ref → Option ConjugateGradient
  | .CG => f.CG
  | _ => none

/-- The multipliers of the levels of an action set, level 0 first. -/
def multipliers (levels : List ActionLevel) : List Nat :=
  levels.map fun l => l.multiplier

/-- All action-term pointers of an action set, level by level. -/
def terms : List ActionLevel → List Ref
  | [] => []
  | l :: rest => l.actions ++ terms rest

/-- The configuration a run works with, gathered from `TheHMC` and from the
objects it points to: seeds, integrator parameters, number of trajectories,
action levels, the two solvers of the pseudofermion term, checkpointer
parameters, couplings, smearing flag and registered observables.  The grid is
not part of it. -/
structure RunConfiguration where
  serial_seeds : String
  parallel_seeds : String
  trajL : Double
  MDsteps : Nat
  Trajectories : Nat
  levels : List ActionLevel
  forceSolver : ConjugateGradient
  actionSolver : ConjugateGradient
  checkpoint : CheckpointerParameters
  beta : Double
  mass : Double
  c1 : Double
  u0 : Double
  is_smeared : Bool
  observables : List ObservableModule
deriving DecidableEq, Repr

/-- Gather the run configuration from the locals. -/
def runConfiguration (f : Frame) : Option RunConfiguration := do
  let hmc ← f.TheHMC
  let rng ← hmc.Resources.RNGs
  let cp ← hmc.Resources.CP
  let nf4 ← f.Nf4
  let ds ← f.Ds
  let ga ← f.GaugeAction
  let fs ← f.solver nf4.DerivativeSolver
  let as ← f.solver nf4.ActionSolver
  some { serial_seeds := rng.serial_seeds, parallel_seeds := rng.parallel_seeds,
         trajL := hmc.Parameters.MD.trajL, MDsteps := hmc.Parameters.MD.MDsteps,
         Trajectories := hmc.Parameters.Trajectories, levels := hmc.TheAction,
         forceSolver := fs, actionSolver := as, checkpoint := cp,
         beta := ga.beta, mass := ds.mass, c1 := ds.c1, u0 := ds.u0,
         is_smeared := nf4.is_smeared, observables := hmc.Resources.ObservablesList }

/-! ## A concrete library -/

/-- Split a character list at the characters satisfying `sep`, dropping empty
pieces.  `cur` is the piece being read, reversed. -/
def splitAt (sep : Char → Bool) : List Char → List Char → List (List Char)
  | [], cur => if cur.isEmpty then [] else [cur.reverse]
  | c :: cs, cur =>
    if sep c then (if cur.isEmpty then splitAt sep cs [] else cur.reverse :: splitAt sep cs [])
    else splitAt sep cs (c :: cur)

/-- A non-empty string of decimal digits as a natural number. -/
def parseNat? (cs : List Char) : Option Nat :=
  if cs.isEmpty then none
  else cs.foldlM (fun acc c =>
    if 48 ≤ c.toNat ∧ c.toNat ≤ 57 then some (10 * acc + (c.toNat - 48)) else none) 0

/-- An optionally signed decimal integer. -/
def parseInt? : List Char → Option Int
  | '-' :: cs => (parseNat? cs).map fun n => -(n : Int)
  | '+' :: cs => (parseNat? cs).map fun n => (n : Int)
  | cs => (parseNat? cs).map fun n => (n : Int)

/-- The argument following the option `opt` on the command line. -/
def optionValue (opt : String) : List String → Option String
  | a :: b :: rest => if a = opt then some b else optionValue opt (b :: rest)
  | _ => none

/-- A dotted list of naturals such as `8.8.8.8`; `dflt` when absent or malformed. -/
def dims (dflt : List Nat) : Option String → List Nat
  | none => dflt
  | some v => ((splitAt (fun c => c = '.') v.toList []).mapM parseNat?).getD dflt

/-- A concrete instance of the library parameters, used to run `main` on
examples: `Grid_init` reads the options `--grid` and `--mpi` (defaults
`8.8.8.8` and `1.1.1.1`), and the default constructors give the values of
Grid's headers, in particular `HMCparameters()` sets `Trajectories = 10` and
`IntegratorParameters()` sets 10 steps of total length 1.0. -/
def gridLibrary : Library :=
  { Grid_init := fun argv =>
      { latt := dims [8, 8, 8, 8] (optionValue "--grid" argv),
        mpi := dims [1, 1, 1, 1] (optionValue "--mpi" argv) },
    HMCparameters_default :=
      { Trajectories := 10, MD := { MDsteps := 10, trajL := Double.ofDecimal 10 (-1) } },
    IntegratorParameters_default := { MDsteps := 10, trajL := Double.ofDecimal 10 (-1) },
    CheckpointerParameters_default :=
      { config_prefix := "cfg", rng_prefix := "rng", saveInterval := 1, format := "IEEE64BIG" },
    RNGModuleParameters_default := { serial_seeds := "1", parallel_seeds := "1" },
    is_smeared_default := false }

/-! ## Which statements write the run configuration -/

/-- The items of the run configuration that `main` writes: members of `TheHMC`
and the smearing flag of the pseudofermion term the run points to. -/
inductive Target
  | MDsteps
  | trajL
  | grid
  | checkpointer
  | rngSeeds
  | observable
  | is_smeared
  | actionLevel (l : LevelVar)
deriving DecidableEq, Repr

/-- The item of the run configuration a statement writes, if any.  Declarations
construct objects and assignments to `CPparams`, `RNGpar`, `Level1`, `Level2`
prepare locals that a later call copies; neither writes the configuration. -/
def Stmt.writes : Stmt → Option Target
  | .assign_MDsteps => some .MDsteps
  | .assign_trajL => some .trajL
  | .AddFourDimGrid => some .grid
  | .LoadNerscCheckpointer => some .checkpointer
  | .SetRNGSeeds => some .rngSeeds
  | .AddObservable => some .observable
  | .assign_is_smeared => some .is_smeared
  | .TheAction_push_back l => some (.actionLevel l)
  | _ => none

/-- The statements before the first call of `TheHMC.Run()`. -/
def beforeRun (body : List Stmt) : List Stmt :=
  body.takeWhile fun st => st != .Run

/-- The statements from the first call of `TheHMC.Run()` on. -/
def fromRun (body : List Stmt) : List Stmt :=
  body.dropWhile fun st => st != .Run

/-- How many statements of a sequence write the given item. -/
def writesOf (t : Target) (body : List Stmt) : Nat :=
  (body.filter fun st => st.writes == some t).length

/-! ## Parts of the engine modelled from the specification -/

/-- Modelled from the spec: the validation of run parameters is not in the
translated source.  The spec names the error ("InvalidParameter (non-positive
trajectory length, zero step count, malformed seed): rejected at
configuration-construction time"); one constructor per constrained run
parameter. -/
inductive InvalidParameter
  | trajectoryLength
  | stepCount
  | multiplier
  | tolerance
  | maxIterations
  | checkpointInterval
  | seed
deriving DecidableEq, Repr

/-- Modelled from the spec: seed parsing is not in the translated source.  The
spec asks for "serial/parallel RNG seeds (sequences of integers)": the string
is cut at white space and every piece must be a decimal integer; an empty
sequence is malformed. -/
def parseSeeds (s : String) : Option (List Int) :=
  let pieces := splitAt Char.isWhitespace s.toList []
  if pieces.isEmpty then none else pieces.mapM parseInt?

/-- Modelled from the spec: the parameter check is not in the translated
source.  It follows the list of run parameters of the spec: "trajectory length
(positive real), MD step count per base level (positive integer), per-level
step multiplier (positive integer ≥ 1), solver tolerance (positive real,
typically ≪ 1), solver max iterations (positive integer), checkpoint interval
in trajectories (positive integer), serial/parallel RNG seeds (sequences of
integers)". -/
def validate (c : RunConfiguration) : Except InvalidParameter Unit :=
  if ¬ 0 < c.trajL.toRat then .error .trajectoryLength
  else if c.MDsteps = 0 then .error .stepCount
  else if c.levels.any (fun l => l.multiplier < 1) then .error .multiplier
  else if ¬ (0 < c.forceSolver.Tolerance.toRat ∧ 0 < c.actionSolver.Tolerance.toRat) then
    .error .tolerance
  else if c.forceSolver.MaxIterations = 0 ∨ c.actionSolver.MaxIterations = 0 then
    .error .maxIterations
  else if ¬ 0 < c.checkpoint.saveInterval then .error .checkpointInterval
  else if (parseSeeds c.serial_seeds).isNone ∨ (parseSeeds c.parallel_seeds).isNone then
    .error .seed
  else .ok ()

/-- Modelled from the spec: the checkpointer is not in the translated source.
The spec says "Filenames are templated with the trajectory index": a file name
is the prefix, a dot and the trajectory index in decimal. -/
def checkpointFile (pre : String) (traj : Nat) : String :=
  pre ++ "." ++ toString traj

/-- Modelled from the spec: the pair of file names of the checkpoint record of
trajectory `traj`, "one file holding the serialized field configuration" and
"one file holding the serialized RNG stream state". -/
def build_filenames (traj : Nat) (Params : CheckpointerParameters) : String × String :=
  (checkpointFile ( CheckpointerParameters.config_prefix Params) traj,
   checkpointFile ( CheckpointerParameters.rng_prefix Params) traj)

/-- A trace repeated `n` times. -/
def repeatTrace : Nat → List Nat → List Nat
  | 0, _ => []
  | n + 1, t => t ++ repeatTrace n t

/-- Modelled from the spec: the integrator is not in the translated source.
The spec says "the coarsest level's one step corresponds to `multiplier`
sub-steps of the next-finer level, recursively".  `step ms level` is the trace
of one step of the level above `level`: the level whose multiplier heads `ms`
takes that many steps, and each of them drives the finer levels `rest` in the
same way.  The trace lists the index of the level of every step taken. -/
def Integrator.step : List Nat → Nat → List Nat
  | [], _ => []
  | m :: rest, level => repeatTrace m (level :: Integrator.step rest (level + 1))

/-- Modelled from the spec: one trajectory is the base number of MD steps, each
driving level 0 and, through it, the finer levels. -/
def Integrator.integrate (MDsteps : Nat) (ms : List Nat) : List Nat :=
  repeatTrace MDsteps (Integrator.step ms 0)

/-- Number of steps level `k` takes in a trace. -/
def stepsAtLevel (k : Nat) (trace : List Nat) : Nat :=
  trace.count k

/-! ## The concrete scenario -/

/-- The configuration of the concrete scenario, written out from constants
only: the seeds, trajectory length 1.0, 20 MD steps, levels with multipliers 1
and 4 holding the pseudofermion term and the gauge action, one solver with
tolerance `1e-8` and iteration limit 2000, the checkpointer parameters, the
couplings, no smearing, the plaquette observable.  The number of trajectories
is the one of the library's default `HMCparameters`. -/
def scenarioConfiguration (lib : Library) : RunConfiguration :=
  { serial_seeds := "1 2 3 4 5",
    parallel_seeds := "6 7 8 9 10",
    trajL := Double.ofDecimal 10 (-1),
    MDsteps := 20,
    Trajectories := lib.HMCparameters_default.Trajectories,
    levels := [{ actions := [.Nf4], multiplier := 1 }, { actions := [.GaugeAction], multiplier := 4 }],
    forceSolver := { Tolerance := Double.ofDecimal 1 (-8), MaxIterations := 2000 },
    actionSolver := { Tolerance := Double.ofDecimal 1 (-8), MaxIterations := 2000 },
    checkpoint :=
      { config_prefix := "ckpoint_lat", rng_prefix := "ckpoint_rng", saveInterval := 5,
        format := "IEEE64BIG" },
    beta := Double.ofDecimal 70 (-1),
    mass := Double.ofDecimal 1 (-1),
    c1 := Double.ofDecimal 0 (-1),
    u0 := Double.ofDecimal 10 (-1),
    is_smeared := false,
    observables := [.PlaquetteMod] }

/-- The number a string of decimal digits stands for, continuing from `init`. -/
def digitsValue (cs : List Char) (init : Nat) : Nat :=
  cs.foldl (fun acc c => 10 * acc + (c.toNat - 48)) init

/-- The objects a run works with: `TheHMC` and the solver, pseudofermion term,
fermion operator and gauge action behind its pointers. -/
def Frame.runObjects (f : Frame) :
    Option GenericHMCRunner × Option ConjugateGradient ×
      Option TwoFlavourEvenOddPseudoFermionAction × Option NaiveStaggeredFermion ×
      Option SymanzikGaugeAction :=
  (f.TheHMC, f.CG, f.Nf4, f.Ds, f.GaugeAction)

/-- The declarations that construct one of the run objects. -/
def Stmt.constructsRunObject : Stmt → Bool
  | .decl_TheHMC => true
  | .decl_CG => true
  | .decl_Nf4 => true
  | .decl_Ds => true
  | .decl_GaugeAction => true
  | _ => false

/-! ## The run, modelled from the specification -/

/-- The signed significand of `x` at the binary exponent `e`, for `e ≤ x.expo`:
`x = scaled x e * 2 ^ e`. -/
def Double.scaled (x : Double) (e : Int) : Int :=
  (if x.neg then -1 else 1) * (x.mant : Int) * 2 ^ (x.expo - e).toNat

/-- Comparison `x < y` of two binary64 values. -/
def Double.lt (x y : Double) : Bool :=
  decide (x.scaled (min x.expo y.expo) < y.scaled (min x.expo y.expo))

/-- Addition of two binary64 values: the exact sum, rounded to nearest, ties to
even. -/
def Double.add (x y : Double) : Double :=
  let e := min x.expo y.expo
  let sum := x.scaled e + y.scaled e
  if 0 ≤ e then Double.ofRatio (decide (sum < 0)) (sum.natAbs * 2 ^ e.toNat) 1
  else Double.ofRatio (decide (sum < 0)) sum.natAbs (2 ^ (-e).toNat)

/-- Modelled from the spec: the engine is not in the translated source.  These
are the collaborators the spec lets the driver consume "via narrow
interfaces": the field types, the RNG streams with their draws (spec 4.5), the
heatbath refresh and the action values of the terms (spec 4.2, 4.3), the
integrator (spec 4.1), the acceptance probability `min(1, exp(H₀ − H₁))` and
the observables (spec 6).  Each is a function of its arguments, as the spec
states for the integrator ("a pure deterministic function of (field,
momentum)") and for the RNG ("identical seeds always reproduce an identical
configuration trajectory bit-for-bit, given identical numeric precision and
identical lattice decomposition").  `none` from `value` or `integrate` is a
solver that did not converge.  `start` is the state `Init` hands to the first
`Refresh` ("load or initialize field/RNG"): the index of the first trajectory,
the field, the serial and the parallel stream. -/
structure Engine where
  Field : Type
  Momentum : Type
  Pseudofermion : Type
  Stream : Type
  start : Decomposition → CheckpointerParameters → List Int → List Int →
    Nat × Field × Stream × Stream
  drawMomentum : Field → Stream → Momentum × Stream
  refresh : RunConfiguration → Field → Stream → Pseudofermion × Stream
  kinetic : Momentum → Double
  value : RunConfiguration → Ref → Field → Pseudofermion → Option Double
  integrate : RunConfiguration → Field → Momentum → Pseudofermion → Option (Field × Momentum)
  drawUniform : Stream → Double × Stream
  acceptProbability : Double → Double → Double
  measure : ObservableModule → Field → Double

/-- Modelled from the spec: the errors that end a run (spec 7), as far as the
driver raises them. -/
inductive RunError
  | NotConfigured
  | InvalidParameter (e : InvalidParameter)
  | ConvergenceFailure
deriving DecidableEq, Repr

/-- Modelled from the spec: what one trajectory leaves behind: its index, the
accept/reject decision, whether a checkpoint was written after it, and the
values of the registered observables on the current field. -/
structure TrajectoryRecord where
  index : Nat
  accepted : Bool
  checkpointed : Bool
  measured : List Double
deriving DecidableEq, Repr

/-- Modelled from the spec: the state the driver carries from one trajectory to
the next: trajectory index, field, serial and parallel RNG stream. -/
structure DriverState (E : Engine) where
  index : Nat
  field : E.Field
  serial : E.Stream
  parallel : E.Stream

/-- Modelled from the spec: the total action value "H = momentum-kinetic-term +
Σ ActionTerm.value(field)" over the terms of all levels (spec 4.7). -/
def HMCDriver.hamiltonian (E : Engine) (c : RunConfiguration) (U : E.Field) (P : E.Momentum)
    (phi : E.Pseudofermion) : Option Double :=
  (terms c.levels).foldlM (fun acc t => (E.value c t U phi).map fun v => acc.add v) (E.kinetic P)

/-- Modelled from the spec: one pass through the states `Refresh`, `Integrate`,
`Decide`, `Checkpoint`, `Measure` of the driver (spec 4.7).  Momentum and
pseudofermions are drawn from the parallel stream, the Metropolis draw is one
draw from the serial stream; on accept the proposed field becomes current, on
reject the field is unchanged; a checkpoint is written every `saveInterval`
trajectories; the observables are measured on whichever field is current. -/
def HMCDriver.trajectory (E : Engine) (c : RunConfiguration) (st : DriverState E) :
    Except RunError (TrajectoryRecord × DriverState E) :=
  let (P, par1) := E.drawMomentum st.field st.parallel
  let (phi, par2) := E.refresh c st.field par1
  match HMCDriver.hamiltonian E c st.field P phi, E.integrate c st.field P phi with
  | some H0, some (U1, P1) =>
    match HMCDriver.hamiltonian E c U1 P1 phi with
    | some H1 =>
      let (u, ser1) := E.drawUniform st.serial
      let accepted := u.lt (E.acceptProbability H0 H1)
      let U := if accepted then U1 else st.field
      .ok ({ index := st.index, accepted := accepted,
             checkpointed := decide (((st.index : Int) + 1) % c.checkpoint.saveInterval = 0),
             measured := c.observables.map fun o => E.measure o U },
           { index := st.index + 1, field := U, serial := ser1, parallel := par2 })
    | none => .error .ConvergenceFailure
  | _, _ => .error .ConvergenceFailure

/-- Modelled from the spec: "Loop Refresh..Measure until the configured number
of trajectories is exhausted"; a failed trajectory ends the run. -/
def HMCDriver.loop (E : Engine) (c : RunConfiguration) :
    Nat → DriverState E → Except RunError (List TrajectoryRecord)
  | 0, _ => .ok []
  | n + 1, st =>
    match HMCDriver.trajectory E c st with
    | .error e => .error e
    | .ok (r, st1) =>
      match HMCDriver.loop E c n st1 with
      | .error e => .error e
      | .ok rs => .ok (r :: rs)

/-- Modelled from the spec: the run on a decomposition and a configuration.
Invalid parameters are rejected "before any trajectory runs"; then `Init`
seeds the streams from the two seed strings and the loop runs the configured
number of trajectories. -/
def HMCDriver.chain (E : Engine) (d : Decomposition) (c : RunConfiguration) :
    Except RunError (List TrajectoryRecord) :=
  match validate c, parseSeeds c.serial_seeds, parseSeeds c.parallel_seeds with
  | .ok _, some s, some p =>
    let (i, U, ser, par) := E.start d c.checkpoint s p
    HMCDriver.loop E c c.Trajectories { index := i, field := U, serial := ser, parallel := par }
  | .error e, _, _ => .error (.InvalidParameter e)
  | _, _, _ => .error (.InvalidParameter .seed)

/-- Modelled from the spec: `TheHMC.Run()` entered with the locals `f`: the run
on the grid registered with `TheHMC.Resources` and on the configuration
gathered from `TheHMC` and the objects it points to. -/
def HMCDriver.Run (E : Engine) (f : Frame) : Except RunError (List TrajectoryRecord) :=
  match (f.TheHMC.bind fun hmc => hmc.Resources.Grids.head?), runConfiguration f with
  | some g, some c => HMCDriver.chain E g.decomposition c
  | _, _ => .error .NotConfigured

/-- The outcome of an execution of `main`: what the run it enters produces. -/
def runOutcome (E : Engine) (lib : Library) (argv : List String) :
    Option (Except RunError (List TrajectoryRecord)) :=
  (handedToRun lib argv).map (HMCDriver.Run E)

/-- The accept/reject decisions of an outcome, in order. -/
def decisions : Except RunError (List TrajectoryRecord) → Option (List Bool)
  | .ok rs => some (rs.map fun r => r.accepted)
  | .error _ => none

/-- The measured observable values of an outcome, in order. -/
def measurements : Except RunError (List TrajectoryRecord) → Option (List (List Double))
  | .ok rs => some (rs.map fun r => r.measured)
  | .error _ => none

/-- The generator of the toy engine: a linear congruential step. -/
def toyNext (s : Nat) : Nat :=
  (1103515245 * s + 12345) % 2 ^ 31

/-- A toy engine on a field of one integer, used to run the driver on examples.
It carries no physics: the streams are linear congruential generators seeded
from the seed sequences, the action of every term is the square of the field
plus the pseudofermion number, a trajectory adds the momentum to the field. -/
def toyEngine : Engine :=
  { Field := Int,
    Momentum := Int,
    Pseudofermion := Int,
    Stream := Nat,
    start := fun d _ s p =>
      (0, (d.latt.length : Int), (s.foldl (fun a x => 31 * a + x) 7).natAbs,
        (p.foldl (fun a x => 31 * a + x) 7).natAbs),
    drawMomentum := fun _ s => (((toyNext s / 1024 % 7 : Nat) : Int) - 3, toyNext s),
    refresh := fun _ _ s => (((toyNext s / 1024 % 5 : Nat) : Int), toyNext s),
    kinetic := fun P => Double.ofInt (P * P),
    value := fun _ _ U phi => some (Double.ofInt (U * U + phi)),
    integrate := fun _ U P _ => some (U + P, P),
    drawUniform := fun s => (Double.ofRatio false (toyNext s / 1024 % 1000) 1000, toyNext s),
    acceptProbability := fun H0 H1 =>
      if H0.lt H1 then Double.ofDecimal 1 (-1) else Double.ofDecimal 10 (-1),
    measure := fun _ U => Double.ofInt U }

/-! ## Values of the literals -/

/-- The literal `1.0` is the number one. -/
theorem one_toRat : (Double.ofDecimal 10 (-1)).toRat = 1 := by
  have h : Double.ofDecimal 10 (-1) = ⟨false, 2 ^ 52, -52⟩ := by decide
  rw [h]
  norm_num [Double.toRat]

/-- The literal `1e-8` as a binary64 value. -/
theorem cg_tol_value : Double.ofDecimal 1 (-8) = ⟨false, 6044629098073146, -79⟩ := by
  decide

/-- The integer 2000 is a binary64 value: the conversion does not round. -/
theorem ofInt_2000_toRat : (Double.ofInt 2000).toRat = 2000 := by
  have h : Double.ofInt 2000 = ⟨false, 2000 * 2 ^ 42, -42⟩ := by decide
  rw [h]
  norm_num [Double.toRat]

/-! ## The values handed to the run -/

/-- C1: for every library and command line, `main` enters `TheHMC.Run()` once,
and at that moment `TheHMC.Parameters.MD` holds trajectory length `1.0` (the
number 1) and 20 MD steps, `TheHMC.Resources` holds the seeds "1 2 3 4 5" and
"6 7 8 9 10", the second level of `TheHMC.TheAction` has multiplier 4, and the
first level holds the pseudofermion term `Nf4`, both of whose solvers are the
object `CG` with tolerance the binary64 value of `1e-8` (within `1e-24` of
`1e-8`) and iteration limit 2000. -/
theorem main_hands_scenario_values_to_Run (lib : Library) (argv : List String) :
    ∃ f hmc rng l1 l2 nf4 cg,
      handedToRun lib argv = some f ∧ f.TheHMC = some hmc ∧
      hmc.Parameters.MD.trajL = Double.ofDecimal 10 (-1) ∧
      hmc.Parameters.MD.trajL.toRat = 1 ∧
      hmc.Parameters.MD.MDsteps = 20 ∧
      hmc.Resources.RNGs = some rng ∧
      rng.serial_seeds = "1 2 3 4 5" ∧ rng.parallel_seeds = "6 7 8 9 10" ∧
      hmc.TheAction = [l1, l2] ∧ l2.multiplier = 4 ∧
      l1.actions = [Ref.Nf4] ∧ f.Nf4 = some nf4 ∧
      f.solver nf4.DerivativeSolver = some cg ∧ f.solver nf4.ActionSolver = some cg ∧
      cg.Tolerance = Double.ofDecimal 1 (-8) ∧
      |cg.Tolerance.toRat - 1 / 10 ^ 8| < 1 / 10 ^ 24 ∧
      cg.MaxIterations = 2000 := by
  refine ⟨_, _, _, _, _, _, _, rfl, rfl, rfl, one_toRat, rfl, rfl, rfl, rfl, rfl, ?_, rfl, rfl,
    rfl, rfl, rfl, ?_, ?_⟩
  · decide
  · show |(Double.ofDecimal 1 (-8)).toRat - 1 / 10 ^ 8| < 1 / 10 ^ 24
    rw [cg_tol_value]
    norm_num [Double.toRat, abs_lt]
  · decide

/-- C3, as stated, fails: with the defaults of Grid's `HMCparameters()` the run
entered by `main` is configured for 10 trajectories, not 5. -/
theorem main_trajectories_not_five :
    ((handedToRun gridLibrary []).bind fun f => f.TheHMC).map
        (fun hmc => hmc.Parameters.Trajectories) = some 10 ∧
      ((handedToRun gridLibrary []).bind fun f => f.TheHMC).map
        (fun hmc => hmc.Parameters.Trajectories) ≠ some 5 := by
  decide

/-- C3, amended: `main` never sets the number of trajectories.  For every
library and command line the run it enters has the number of trajectories of
the default-constructed `HMCparameters`, and the 5 that `main` configures is
the save interval of the checkpointer. -/
theorem main_trajectories_are_the_default (lib : Library) (argv : List String) :
    ∃ f hmc cp,
      handedToRun lib argv = some f ∧ f.TheHMC = some hmc ∧
      hmc.Parameters.Trajectories = lib.HMCparameters_default.Trajectories ∧
      hmc.Resources.CP = some cp ∧ cp.saveInterval = 5 :=
  ⟨_, _, _, rfl, rfl, rfl, rfl, rfl⟩

/-- C4: when `Run()` is called the levels of `TheHMC.TheAction` have the
multipliers 1 (level 0) and 4 (level 1); every multiplier is at least 1 and
the multipliers are non-decreasing from level 0 to the last level. -/
theorem main_action_levels_invariant (lib : Library) (argv : List String) :
    ∃ f hmc,
      handedToRun lib argv = some f ∧ f.TheHMC = some hmc ∧
      multipliers hmc.TheAction = [1, 4] ∧
      (∀ m ∈ multipliers hmc.TheAction, 1 ≤ m) ∧
      (multipliers hmc.TheAction).Sorted (· ≤ ·) := by
  refine ⟨_, _, rfl, rfl, rfl, ?_, ?_⟩
  · show ∀ m ∈ [1, 4], 1 ≤ m
    decide
  · show List.Sorted (· ≤ ·) [1, 4]
    decide

/-- C9: the pseudofermion term handed to the run holds one and the same solver
object for the force and for the action value, so both solves run with the
tolerance of the literal `1e-8` and the same iteration limit; the limit is
declared as the `double` 2000, which is exactly the number 2000, and its
conversion to the solver's 32-bit unsigned limit is exactly 2000. -/
theorem main_one_solver_exact_limit (lib : Library) (argv : List String) :
    ∃ f nf4 cg it,
      handedToRun lib argv = some f ∧ f.Nf4 = some nf4 ∧
      nf4.DerivativeSolver = nf4.ActionSolver ∧
      f.solver nf4.DerivativeSolver = some cg ∧ f.solver nf4.ActionSolver = some cg ∧
      cg.Tolerance = Double.ofDecimal 1 (-8) ∧
      f.max_cg_iters = some it ∧ it = Double.ofInt 2000 ∧ it.toRat = 2000 ∧
      it.toUnsigned 32 = some cg.MaxIterations ∧
      cg.MaxIterations = 2000 ∧ (cg.MaxIterations : ℚ) = it.toRat := by
  refine ⟨_, _, _, _, rfl, rfl, rfl, rfl, rfl, rfl, rfl, rfl, ofInt_2000_toRat, ?_, ?_, ?_⟩
  · show (Double.ofInt 2000).toUnsigned 32 = some 2000
    decide
  · rfl
  · show ((2000 : Nat) : ℚ) = (Double.ofInt 2000).toRat
    rw [ofInt_2000_toRat]
    norm_num

/-- C10: when `Run()` is called `TheHMC.TheAction` is `[Level1, Level2]`, by value
equal to the locals `Level1` and `Level2` at that moment; `Level1` holds exactly
the pointer to `Nf4` and `Level2` exactly the pointer to `GaugeAction`, so no
level is empty and no term is in two levels; both objects exist, and `Nf4`
itself carries `is_smeared = false`.  In `main` each term is pushed to its
level before the level is pushed to `TheHMC.TheAction`, and the flag is
assigned before that too. -/
theorem main_action_set_at_Run (lib : Library) (argv : List String) :
    ∃ f hmc l1 l2 nf4,
      handedToRun lib argv = some f ∧ f.TheHMC = some hmc ∧
      hmc.TheAction = [l1, l2] ∧ f.Level1 = some l1 ∧ f.Level2 = some l2 ∧
      l1.actions = [Ref.Nf4] ∧ l2.actions = [Ref.GaugeAction] ∧
      (terms hmc.TheAction).Nodup ∧
      f.Nf4 = some nf4 ∧ nf4.is_smeared = false ∧ f.GaugeAction.isSome = true ∧
      mainBody.indexOf (.Level_push_back .Level1 .Nf4) <
        mainBody.indexOf (.TheAction_push_back .Level1) ∧
      mainBody.indexOf (.Level_push_back .Level2 .GaugeAction) <
        mainBody.indexOf (.TheAction_push_back .Level2) ∧
      mainBody.indexOf .assign_is_smeared < mainBody.indexOf (.TheAction_push_back .Level1) := by
  refine ⟨_, _, _, _, _, rfl, rfl, rfl, rfl, rfl, rfl, rfl, ?_, rfl, rfl, rfl, ?_, ?_, ?_⟩
  · show [Ref.Nf4, Ref.GaugeAction].Nodup
    decide
  · decide
  · decide
  · decide

/-! ## Independence of the command line -/

/-- The run configuration is the scenario's, whatever the command line. -/
theorem runConfiguration_eq_scenario (lib : Library) (argv : List String) :
    (handedToRun lib argv).bind runConfiguration = some (scenarioConfiguration lib) :=
  rfl

/-! ## Order of the statements -/

/-- The classification `Stmt.writes` misses nothing: a statement that neither
writes an item of the run configuration nor constructs a run object leaves
`TheHMC` and the objects behind its pointers as they are. -/
theorem exec_keeps_run_objects (lib : Library) (argv : List String) (st : Stmt) (s s1 : State)
    (h : exec lib argv st s = some s1) (hw : st.writes = none)
    (hd : st.constructsRunObject = false) :
    s1.frame.runObjects = s.frame.runObjects := by
  cases st with
  | Level_push_back l a =>
    simp [exec, State.onFrame, Option.bind_eq_some, bind, pure] at h
    obtain ⟨lv, _, _, rfl⟩ := h
    cases l <;> rfl
  | _ =>
    simp [Stmt.writes, Stmt.constructsRunObject] at hw hd <;>
    simp [exec, State.onFrame, Option.bind_eq_some, bind, pure] at h <;>
    first
    | (subst h; rfl)
    | (obtain ⟨_, _, rfl⟩ := h; rfl)
    | (obtain ⟨_, _, _, _, rfl⟩ := h; rfl)

/-- C8: in the body of `main` there is one call of `TheHMC.Run()`, and from it on
the body is `Run(); Grid_finalize();`.  Every item of the run configuration (MD
steps, trajectory length, grid, checkpointer parameters, RNG seeds, observable,
smearing flag, each action level) is written by exactly one statement of the
body and that statement comes before `Run()`; `SetRNGSeeds` occurs once.  When
`main` has finished, `Run()` has been entered exactly once, the locals are
still those it was entered with, and `Grid_finalize` has been called. -/
theorem main_writes_once_before_Run (lib : Library) (argv : List String) :
    mainBody.count .Run = 1 ∧
      fromRun mainBody = [.Run, .Grid_finalize] ∧
      (∀ t : Target, writesOf t mainBody = 1 ∧ writesOf t (beforeRun mainBody) = 1) ∧
      mainBody.count .SetRNGSeeds = 1 ∧
      ∃ s f, main lib argv = some s ∧ s.runs = [f] ∧ s.frame = f ∧ s.finalized = true := by
  refine ⟨by decide, by decide, ?_, by decide, _, _, rfl, rfl, rfl, rfl⟩
  intro t
  rcases t with _ | _ | _ | _ | _ | _ | _ | ⟨_ | _⟩ <;> decide

/-! ## Steps per level -/

/-- Repeating a trace multiplies the number of steps of every level. -/
theorem count_repeatTrace (k n : Nat) (t : List Nat) :
    (repeatTrace n t).count k = n * t.count k := by
  induction n with
  | zero => simp [repeatTrace]
  | succ n ih => simp [repeatTrace, List.count_append, ih]; ring

/-- A step of the levels from `level` on does not step a coarser level. -/
theorem count_step_coarser (ms : List Nat) (level k : Nat) (h : k < level) :
    (Integrator.step ms level).count k = 0 := by
  induction ms generalizing level with
  | nil => simp [Integrator.step]
  | cons m rest ih =>
    have hne : level ≠ k := by omega
    simp [Integrator.step, count_repeatTrace, List.count_cons, hne, ih (level + 1) (by omega)]

/-- One step of the level above `level` steps the level `level + j` as often as
the product of the multipliers of the levels `level .. level + j`. -/
theorem count_step (ms : List Nat) (level j : Nat) (h : j < ms.length) :
    (Integrator.step ms level).count (level + j) = (ms.take (j + 1)).prod := by
  induction ms generalizing level j with
  | nil => simp at h
  | cons m rest ih =>
    cases j with
    | zero =>
      simp [Integrator.step, count_repeatTrace, List.count_cons,
        count_step_coarser rest (level + 1) level (by omega)]
    | succ j =>
      have hj : j < rest.length := by simpa using h
      have hne : level ≠ level + (j + 1) := by omega
      have e : level + (j + 1) = level + 1 + j := by omega
      simp only [Integrator.step, count_repeatTrace, List.count_cons, List.take_succ_cons,
        List.prod_cons]
      rw [e, ih (level + 1) j hj]
      have : (level == level + 1 + j) = false := by simp; omega
      simp [this]

/-- Level `k` takes the base number of steps times the product of the
multipliers of the levels `0 .. k`. -/
theorem stepsAtLevel_integrate (n : Nat) (ms : List Nat) (k : Nat) (h : k < ms.length) :
    stepsAtLevel k (Integrator.integrate n ms) = n * (ms.take (k + 1)).prod := by
  have := count_step ms 0 k h
  simp only [Nat.zero_add] at this
  simp [stepsAtLevel, Integrator.integrate, count_repeatTrace, this]

/-- C5 (the integrator is modelled from the specification): for the levels and
the MD step count that `main` hands to the run, level 0, which holds the
pseudofermion term, takes `20 * 1 = 20` steps per trajectory, and level 1,
which holds the gauge action, takes `20 * (1 * 4) = 80`, the base step count
times the product of all multipliers; the gauge action is stepped 4 times per
step of the pseudofermion term. -/
theorem main_steps_per_level (lib : Library) (argv : List String) :
    ∃ f hmc l1 l2 trace,
      handedToRun lib argv = some f ∧ f.TheHMC = some hmc ∧
      hmc.TheAction = [l1, l2] ∧ l1.actions = [Ref.Nf4] ∧ l2.actions = [Ref.GaugeAction] ∧
      trace = Integrator.integrate hmc.Parameters.MD.MDsteps (multipliers hmc.TheAction) ∧
      stepsAtLevel 0 trace = hmc.Parameters.MD.MDsteps * l1.multiplier ∧
      stepsAtLevel 1 trace = hmc.Parameters.MD.MDsteps * (l1.multiplier * l2.multiplier) ∧
      stepsAtLevel 1 trace = hmc.Parameters.MD.MDsteps * (multipliers hmc.TheAction).prod ∧
      stepsAtLevel 0 trace = 20 ∧ stepsAtLevel 1 trace = 80 ∧
      stepsAtLevel 1 trace = 4 * stepsAtLevel 0 trace := by
  have h0 := stepsAtLevel_integrate 20 [1, 4] 0 (by decide)
  have h1 := stepsAtLevel_integrate 20 [1, 4] 1 (by decide)
  have a0 : stepsAtLevel 0 (Integrator.integrate 20 [1, 4]) = 20 * 1 := h0.trans (by decide)
  have a1 : stepsAtLevel 1 (Integrator.integrate 20 [1, 4]) = 20 * (1 * 4) := h1.trans (by decide)
  have a2 : stepsAtLevel 1 (Integrator.integrate 20 [1, 4]) = 20 * [1, 4].prod :=
    h1.trans (by decide)
  have b0 : stepsAtLevel 0 (Integrator.integrate 20 [1, 4]) = 20 := a0
  have b1 : stepsAtLevel 1 (Integrator.integrate 20 [1, 4]) = 80 := a1
  have c : stepsAtLevel 1 (Integrator.integrate 20 [1, 4]) =
      4 * stepsAtLevel 0 (Integrator.integrate 20 [1, 4]) := by rw [b0, b1]
  exact ⟨_, _, _, _, _, rfl, rfl, rfl, rfl, rfl, rfl, a0, a1, a2, b0, b1, c⟩

/-! ## Checkpoint file names -/

theorem digitChar_value (d : Nat) (h : d < 10) : (Nat.digitChar d).toNat - 48 = d := by
  interval_cases d <;> rfl

/-- Reading back the digits `Nat.toDigitsCore` writes in front of `ds`. -/
theorem digitsValue_toDigitsCore (fuel n : Nat) (ds : List Char) (h : n < fuel) :
    digitsValue (Nat.toDigitsCore 10 fuel n ds) 0 = digitsValue ds n := by
  induction fuel generalizing n ds with
  | zero => omega
  | succ fuel ih =>
    unfold Nat.toDigitsCore
    by_cases h0 : n / 10 = 0
    · have hn : n % 10 = n := Nat.mod_eq_of_lt (by omega)
      have hd : (Nat.digitChar n).toNat - 48 = n := digitChar_value n (by omega)
      simp [h0, digitsValue, hn, hd]
    · have hlt : n / 10 < fuel := by omega
      simp only [h0, if_false]
      rw [ih (n / 10) _ hlt]
      simp only [digitsValue, List.foldl_cons, digitChar_value (n % 10) (Nat.mod_lt _ (by decide))]
      congr 1
      omega

/-- The decimal rendering of a natural number determines the number. -/
theorem toString_nat_injective (m n : Nat) (h : toString m = toString n) : m = n := by
  have hm : digitsValue (toString m).data 0 = m := by
    show digitsValue (Nat.toDigitsCore 10 (m + 1) m []) 0 = m
    rw [digitsValue_toDigitsCore _ _ _ (by omega)]
    rfl
  have hn : digitsValue (toString n).data 0 = n := by
    show digitsValue (Nat.toDigitsCore 10 (n + 1) n []) 0 = n
    rw [digitsValue_toDigitsCore _ _ _ (by omega)]
    rfl
  rw [← hm, ← hn, h]

/-- File names with the same prefix agree only for the same trajectory. -/
theorem checkpointFile_inj (pre : String) (m n : Nat) :
    checkpointFile pre m = checkpointFile pre n ↔ m = n := by
  constructor
  · intro h
    apply toString_nat_injective
    have h2 := congrArg String.data h
    simp only [checkpointFile, String.data_append, List.append_assoc] at h2
    have h3 := List.append_cancel_left h2
    have h4 := List.append_cancel_left h3
    exact String.ext h4
  · intro h
    rw [h]

/-- A name built on `ckpoint_lat` is never a name built on `ckpoint_rng`. -/
theorem checkpointFile_lat_ne_rng (m n : Nat) :
    checkpointFile "ckpoint_lat" m ≠ checkpointFile "ckpoint_rng" n := by
  intro h
  have h2 := congrArg String.data h
  simp [checkpointFile, String.data_append] at h2

/-- C7 (file names are modelled from the specification): the checkpointer
registered in `TheHMC.Resources` when `Run()` is called has format `IEEE64BIG`,
configuration prefix `ckpoint_lat` and RNG prefix `ckpoint_rng`, which differ;
hence for all trajectory indices the configuration file and the RNG file have
different names, and two files of the same kind have the same name only for
the same trajectory index. -/
theorem main_checkpoint_file_pair (lib : Library) (argv : List String) :
    ∃ f hmc cp,
      handedToRun lib argv = some f ∧ f.TheHMC = some hmc ∧ hmc.Resources.CP = some cp ∧
      cp.format = "IEEE64BIG" ∧
      CheckpointerParameters.config_prefix cp = "ckpoint_lat" ∧
      CheckpointerParameters.rng_prefix cp = "ckpoint_rng" ∧
      CheckpointerParameters.config_prefix cp ≠ CheckpointerParameters.rng_prefix cp ∧
      (∀ m n, (build_filenames m cp).1 ≠ (build_filenames n cp).2) ∧
      (∀ m n, (build_filenames m cp).1 = (build_filenames n cp).1 ↔ m = n) ∧
      (∀ m n, (build_filenames m cp).2 = (build_filenames n cp).2 ↔ m = n) := by
  refine ⟨_, _, _, rfl, rfl, rfl, rfl, rfl, rfl, ?_, ?_, ?_, ?_⟩
  · show "ckpoint_lat" ≠ "ckpoint_rng"
    decide
  · exact fun m n => checkpointFile_lat_ne_rng m n
  · exact fun m n => checkpointFile_inj "ckpoint_lat" m n
  · exact fun m n => checkpointFile_inj "ckpoint_rng" m n

/-! ## Validity of the run parameters -/

/-- The tolerance `1e-8` is positive and below one. -/
theorem cg_tol_bounds :
    0 < (Double.ofDecimal 1 (-8)).toRat ∧ (Double.ofDecimal 1 (-8)).toRat < 1 := by
  rw [cg_tol_value]
  norm_num [Double.toRat]

theorem parseSeeds_serial : parseSeeds "1 2 3 4 5" = some [1, 2, 3, 4, 5] := by
  decide

theorem parseSeeds_parallel : parseSeeds "6 7 8 9 10" = some [6, 7, 8, 9, 10] := by
  decide

/-- The scenario passes the parameter check. -/
theorem validate_scenario (lib : Library) : validate (scenarioConfiguration lib) = .ok () := by
  have ht : (0 : ℚ) < (Double.ofDecimal 10 (-1)).toRat := by rw [one_toRat]; norm_num
  simp [validate, scenarioConfiguration, ht, cg_tol_bounds.1, parseSeeds_serial,
    parseSeeds_parallel]

/-- C6 (the parameter check is modelled from the specification): the run
configuration `main` hands to `Run()` passes the check, so no `InvalidParameter`
is raised; in detail the trajectory length is 1 and positive, the MD step count
is 20 and positive, the multipliers are 1 and 4 and each at least 1, the solver
tolerance is positive and below 1, the iteration limit is 2000 and positive,
the checkpoint interval is 5 and positive, and the seed strings parse as the
non-empty integer sequences 1 2 3 4 5 and 6 7 8 9 10. -/
theorem main_parameters_valid (lib : Library) (argv : List String) :
    ∃ f c,
      handedToRun lib argv = some f ∧ runConfiguration f = some c ∧
      validate c = .ok () ∧
      c.trajL.toRat = 1 ∧ 0 < c.trajL.toRat ∧
      c.MDsteps = 20 ∧ 0 < c.MDsteps ∧
      multipliers c.levels = [1, 4] ∧ (∀ m ∈ multipliers c.levels, 1 ≤ m) ∧
      c.actionSolver = c.forceSolver ∧
      0 < c.forceSolver.Tolerance.toRat ∧ c.forceSolver.Tolerance.toRat < 1 ∧
      c.forceSolver.MaxIterations = 2000 ∧ 0 < c.forceSolver.MaxIterations ∧
      c.checkpoint.saveInterval = 5 ∧ 0 < c.checkpoint.saveInterval ∧
      parseSeeds c.serial_seeds = some [1, 2, 3, 4, 5] ∧
      parseSeeds c.parallel_seeds = some [6, 7, 8, 9, 10] := by
  have ht : (0 : ℚ) < (Double.ofDecimal 10 (-1)).toRat := by rw [one_toRat]; norm_num
  have hm : ∀ m ∈ [1, 4], 1 ≤ m := by decide
  have h20 : 0 < 20 := by decide
  have h2000 : 0 < 2000 := by decide
  have h5 : (0 : Int) < 5 := by decide
  exact ⟨_, scenarioConfiguration lib, rfl, rfl, validate_scenario lib, one_toRat, ht, rfl,
    h20, rfl, hm, rfl, cg_tol_bounds.1, cg_tol_bounds.2, rfl, h2000, rfl, h5,
    parseSeeds_serial, parseSeeds_parallel⟩

/-! ## The outcome of the run -/

/-- On normalised exponents: a binary64 value is its scaled significand times
the power of two. -/
theorem Double.toRat_eq_scaled (x : Double) (e : Int) (h : e ≤ x.expo) :
    x.toRat = (x.scaled e : ℚ) * (2 : ℚ) ^ e := by
  have h2 : (2 : ℚ) ^ x.expo = (2 : ℚ) ^ (x.expo - e).toNat * (2 : ℚ) ^ e := by
    have : x.expo = ((x.expo - e).toNat : Int) + e := by
      rw [Int.toNat_of_nonneg (by omega)]; ring
    conv_lhs => rw [this]
    rw [zpow_add₀ (by norm_num), zpow_natCast]
  unfold Double.toRat Double.scaled
  rw [h2]
  cases x.neg <;> simp <;> ring

/-- The comparison on binary64 values is the comparison of the numbers. -/
theorem Double.lt_iff (x y : Double) : x.lt y = true ↔ x.toRat < y.toRat := by
  have hx := Double.toRat_eq_scaled x (min x.expo y.expo) (min_le_left _ _)
  have hy := Double.toRat_eq_scaled y (min x.expo y.expo) (min_le_right _ _)
  have hpos : (0 : ℚ) < (2 : ℚ) ^ (min x.expo y.expo) := zpow_pos (by norm_num) _
  rw [hx, hy, mul_lt_mul_right hpos]
  simp [Double.lt]

/-- A loop that does not fail leaves one record per trajectory. -/
theorem loop_length (E : Engine) (c : RunConfiguration) (n : Nat) (st : DriverState E)
    (rs : List TrajectoryRecord) (h : HMCDriver.loop E c n st = .ok rs) : rs.length = n := by
  induction n generalizing st rs with
  | zero =>
    simp [HMCDriver.loop] at h
    subst h; rfl
  | succ n ih =>
    unfold HMCDriver.loop at h
    cases ht : HMCDriver.trajectory E c st with
    | error e => simp [ht] at h
    | ok p =>
      obtain ⟨r, st1⟩ := p
      simp only [ht] at h
      cases hl : HMCDriver.loop E c n st1 with
      | error e => simp [hl] at h
      | ok rs1 =>
        simp only [hl] at h
        injection h with h
        subst h
        simp [ih st1 rs1 hl]

/-- The outcome of `main` is the run on the decomposition `Grid_init` made of
the command line and on the configuration of the scenario. -/
theorem runOutcome_eq_chain (E : Engine) (lib : Library) (argv : List String) :
    runOutcome E lib argv =
      some (HMCDriver.chain E (lib.Grid_init argv) (scenarioConfiguration lib)) :=
  rfl

/-- The run on a configuration whose parameters and seeds pass the check is
the loop from the state `Init` provides. -/
theorem chain_eq_loop (E : Engine) (d : Decomposition) (c : RunConfiguration) (s p : List Int)
    (hv : validate c = .ok ()) (hs : parseSeeds c.serial_seeds = some s)
    (hp : parseSeeds c.parallel_seeds = some p) :
    HMCDriver.chain E d c =
      HMCDriver.loop E c c.Trajectories
        { index := (E.start d c.checkpoint s p).1,
          field := (E.start d c.checkpoint s p).2.1,
          serial := (E.start d c.checkpoint s p).2.2.1,
          parallel := (E.start d c.checkpoint s p).2.2.2 } := by
  unfold HMCDriver.chain
  rw [hv, hs, hp]

/-- A run on the scenario that does not fail leaves as many records as the
default `HMCparameters` have trajectories: one decision and one measurement
per trajectory. -/
theorem chain_length (E : Engine) (lib : Library) (d : Decomposition)
    (rs : List TrajectoryRecord)
    (h : HMCDriver.chain E d (scenarioConfiguration lib) = .ok rs) :
    rs.length = lib.HMCparameters_default.Trajectories := by
  rw [chain_eq_loop E d (scenarioConfiguration lib) _ _ (validate_scenario lib)
    parseSeeds_serial parseSeeds_parallel] at h
  exact loop_length E _ _ _ rs h

set_option maxRecDepth 100000 in
/-- The toy engine run by `main` with the library defaults: ten trajectories,
the third and the ninth rejected, the plaquette slot measured after each. -/
theorem toy_outcome :
    (runOutcome toyEngine gridLibrary []).bind decisions =
        some [true, true, false, true, true, true, true, true, false, true] ∧
      (runOutcome toyEngine gridLibrary []).bind measurements =
        some [[Double.ofInt 3], [Double.ofInt 3], [Double.ofInt 3], [Double.ofInt 3],
          [Double.ofInt 2], [Double.ofInt 5], [Double.ofInt 4], [Double.ofInt 2],
          [Double.ofInt 2], [Double.ofInt 1]] := by
  rw [runOutcome_eq_chain, chain_eq_loop toyEngine _ (scenarioConfiguration gridLibrary) _ _
    (validate_scenario gridLibrary) parseSeeds_serial parseSeeds_parallel]
  constructor <;> decide

set_option maxRecDepth 100000 in
/-- The decomposition matters: on a different lattice the toy engine measures
different values. -/
theorem toy_outcome_other_lattice :
    (runOutcome toyEngine gridLibrary ["StaggeredHMC", "--grid", "4.4"]).bind measurements ≠
      (runOutcome toyEngine gridLibrary ["StaggeredHMC"]).bind measurements := by
  rw [runOutcome_eq_chain, runOutcome_eq_chain,
    chain_eq_loop toyEngine _ (scenarioConfiguration gridLibrary) _ _
      (validate_scenario gridLibrary) parseSeeds_serial parseSeeds_parallel,
    chain_eq_loop toyEngine _ (scenarioConfiguration gridLibrary) _ _
      (validate_scenario gridLibrary) parseSeeds_serial parseSeeds_parallel]
  decide

end Grid
